import Mathlib

/-!
Shallow embedding of the TikTok gift hardware controller
(`src/serial_handler/handler.py`, `src/tiktok_detector/detector.py`,
`src/main_controller.py`).

Times are modelled as rationals, the bounded `asyncio.Queue` as a list with a
`maxsize` field, and the blocking worker loop of
`SerialGiftProcessor._process_gifts_loop` as a per-iteration transition
function driven by an environment oracle (current clock value, whether the
serial connection is still open, the pending incoming line, whether an open
attempt succeeds).  Logging is modelled as a trace of tagged events.
-/

/-- The six ASCII whitespace characters removed by Python `str.strip()`
(space, tab, newline, carriage return, vertical tab, form feed); the model is
restricted to ASCII input. -/
def isPySpace (c : Char) : Bool :=
  c = ' ' || c = '\t' || c = '\n' || c = '\r' || c = Char.ofNat 11 || c = Char.ofNat 12

/-- Python `str.strip()`: remove leading and trailing whitespace. -/
def pyStrip (s : String) : String :=
  ⟨((s.data.dropWhile isPySpace).reverse.dropWhile isPySpace).reverse⟩

/-- Python `str.rstrip()`: remove trailing whitespace only.  Used to state the
spec-side acceptance criterion ("after trimming trailing whitespace/newline"),
for comparison with the code, which uses `strip()` on both sides. -/
def pyRstrip (s : String) : String :=
  ⟨(s.data.reverse.dropWhile isPySpace).reverse⟩

/-- One dispatch request, as built by `TikTokGiftDetector.on_gift`
(`detector.py` lines 80-85): `{name, id, user, timestamp}`. -/
structure GiftInfo where
  name : String
  id : Nat
  user : String
  timestamp : ℚ
deriving DecidableEq

/-- The bounded `asyncio.Queue`: a FIFO list of items plus the `maxsize`
it was constructed with (`maxsize = 0` means unbounded). -/
structure BoundedQueue (α : Type) where
  maxsize : Nat
  items : List α
deriving DecidableEq

/-- `asyncio.Queue.full()`: true iff `maxsize > 0` and at least `maxsize`
items are stored. -/
def BoundedQueue.isFull {α : Type} (q : BoundedQueue α) : Bool :=
  decide (0 < q.maxsize) && decide (q.maxsize ≤ q.items.length)

/-- Result of a non-blocking enqueue attempt: `enqueued` on success,
`dropped` when `put_nowait` raised `asyncio.QueueFull`. -/
inductive PutResult where
  | enqueued
  | dropped
deriving DecidableEq

/-- `asyncio.Queue.put_nowait(x)`: if the queue is full the item is rejected
(`QueueFull`) and the queue is unchanged; otherwise the item is appended at
the tail.  Never blocks. -/
def put_nowait {α : Type} (q : BoundedQueue α) (x : α) : PutResult × BoundedQueue α :=
  if q.isFull then (PutResult.dropped, q)
  else (PutResult.enqueued, { q with items := q.items ++ [x] })

/-- Configuration of `TikTokGiftDetector` (`detector.py` `__init__`):
the target gift name and the optional target gift id.  The empty string
models a missing/falsy `target_gift_id` (Python `if self.target_gift_id:`). -/
structure DetectorConfig where
  targetGiftName : String
  targetGiftId : String
deriving DecidableEq

/-- An inbound gift event as seen by `on_gift`: gift name, numeric gift id
(`str()` is applied to it before comparison), and sender nickname. -/
structure GiftEvent where
  giftName : String
  giftId : Nat
  userNickname : String
deriving DecidableEq

/-- The matching test of `TikTokGiftDetector.on_gift` (`detector.py`
lines 72-77): when `target_gift_id` is non-empty, match on
`str(event.gift.id) == target_gift_id`; otherwise match on the gift name. -/
def isTargetGift (cfg : DetectorConfig) (e : GiftEvent) : Bool :=
  if cfg.targetGiftId ≠ "" then decide (toString e.giftId = cfg.targetGiftId)
  else decide (e.giftName = cfg.targetGiftName)

/-- Log events emitted by the detector side of `on_gift`. -/
inductive DetLog where
  | enqueuedTarget
  | queueFullDropped
deriving DecidableEq

/-- `TikTokGiftDetector.on_gift` (`detector.py` lines 69-92): test the event
against the configured target; on a match build the gift-info record and
`put_nowait` it; a `QueueFull` is caught and logged as a warning (the queue is
left as it was); a non-matching event leaves the queue untouched.  The Python
handler catches every exception, so the function is total and returns
normally in all cases. -/
def on_gift (cfg : DetectorConfig) (q : BoundedQueue GiftInfo) (e : GiftEvent)
    (now : ℚ) : BoundedQueue GiftInfo × List DetLog :=
  if isTargetGift cfg e then
    match put_nowait q ⟨e.giftName, e.giftId, e.userNickname, now⟩ with
    | (PutResult.enqueued, q2) => (q2, [DetLog.enqueuedTarget])
    | (PutResult.dropped, _) => (q, [DetLog.queueFullDropped])
  else (q, [])

/-- Configuration of `SerialGiftProcessor` (`handler.py` `__init__`): the
ready-signal string is stored stripped (`ready_signal.strip()`, line 34),
together with the command string and the cooldown in seconds. -/
structure WorkerConfig where
  port : String
  baudRate : Nat
  readySignal : String
  giftCommand : String
  processCooldown : ℚ
deriving DecidableEq

/-- Constructor mirroring `SerialGiftProcessor.__init__`: the raw configured
ready-signal string is stripped before being stored. -/
def mkWorkerConfig (port : String) (baudRate : Nat) (readySignalRaw : String)
    (giftCommand : String) (processCooldown : ℚ) : WorkerConfig :=
  ⟨port, baudRate, pyStrip readySignalRaw, giftCommand, processCooldown⟩

/-- Mutable state of the worker relevant to one loop iteration: the contents
of `gift_queue`, `_last_processed_time`, and whether `serial_conn` is a live
open connection (`serial_conn is not None and serial_conn.is_open`). -/
structure WorkerState where
  queue : List GiftInfo
  lastProcessedTime : ℚ
  connOpen : Bool
deriving DecidableEq

/-- State right after `__init__` (`handler.py` line 42):
`_last_processed_time = 0`, no serial connection, queue as provided
(empty at construction in `main_controller.py`). -/
def initWorkerState : WorkerState :=
  { queue := [], lastProcessedTime := 0, connOpen := false }

/-- Environment oracle for one iteration of `_process_gifts_loop`: the value
of `time.time()` at the top of the body, the value of `time.time()` taken
when recording `_last_processed_time` after a write, whether the existing
connection still reports `is_open`, the pending line `readline()` would
return (`none` models `in_waiting == 0`), and whether an open attempt made by
`_reconnect_serial` in this iteration would succeed. -/
structure IterEnv where
  now : ℚ
  nowAtWrite : ℚ
  connAlive : Bool
  incoming : Option String
  openOk : Bool

/-- Log events of the worker loop. -/
inductive LogEv where
  | receivedReady
  | unexpectedSignal (line : String)
  | reconnectSucceeded
  | reconnectFailedWait5
  | openFailedPortsListed
deriving DecidableEq

/-- Observable effects of one loop iteration: transport writes performed
(`serial_conn.write`), raw lines consumed from the transport
(`serial_conn.readline`), and log events. -/
structure IterTrace where
  writes : List String
  reads : List String
  logs : List LogEv
deriving DecidableEq

/-- The second conjunct of `can_process_gift` (`handler.py` lines 88-90):
`current_time - self._last_processed_time >= self.process_cooldown`. -/
def cooldownElapsed (cfg : WorkerConfig) (s : WorkerState) (now : ℚ) : Bool :=
  decide (now - s.lastProcessedTime ≥ cfg.processCooldown)

/-- `can_process_gift = not gift_queue.empty() and (current_time -
_last_processed_time >= process_cooldown)` (`handler.py` lines 88-90). -/
def canProcessGift (cfg : WorkerConfig) (s : WorkerState) (now : ℚ) : Bool :=
  decide (s.queue ≠ []) && cooldownElapsed cfg s now

/-- One iteration of the body of the `while not self._stop_event.is_set()`
loop of `_process_gifts_loop` (`handler.py` lines 86-136).  Branch structure
mirrors the source: the handshake branch runs only when the connection is
live AND `can_process_gift` holds; a missing/closed connection triggers a
reconnect attempt (failed attempts wait 5 s, log the available ports, and
leave `serial_conn = None`); otherwise the iteration only sleeps.  Inside the
handshake branch, a pending line is read, stripped, and compared with the
stored ready signal: on a match one queue item is taken, the command plus a
newline is written and flushed, and `_last_processed_time` is updated; a
non-empty non-matching line is logged as an unexpected signal. -/
def processGiftsIter (cfg : WorkerConfig) (s : WorkerState) (env : IterEnv) :
    WorkerState × IterTrace :=
  let connLive := s.connOpen && env.connAlive
  if connLive && canProcessGift cfg s env.now then
    match env.incoming with
    | none => (s, ⟨[], [], []⟩)
    | some raw =>
      let line := pyStrip raw
      if line = cfg.readySignal then
        match s.queue with
        | [] => (s, ⟨[], [raw], [LogEv.receivedReady]⟩)
        | _g :: rest =>
          ({ queue := rest, lastProcessedTime := env.nowAtWrite, connOpen := s.connOpen },
           ⟨[cfg.giftCommand ++ "\n"], [raw], [LogEv.receivedReady]⟩)
      else if line ≠ "" then (s, ⟨[], [raw], [LogEv.unexpectedSignal line]⟩)
      else (s, ⟨[], [raw], []⟩)
  else if !connLive then
    if env.openOk then
      ({ s with connOpen := true }, ⟨[], [], [LogEv.reconnectSucceeded]⟩)
    else
      ({ s with connOpen := false },
       ⟨[], [], [LogEv.openFailedPortsListed, LogEv.reconnectFailedWait5]⟩)
  else (s, ⟨[], [], []⟩)

/-- How a run of the worker thread body ended: `terminatedInitFail` is the
early `return` of `_process_gifts_loop` when the initial
`_initialize_serial()` fails (`handler.py` lines 79-83); `stoppedBySignal` is
a normal exit after `_stop_event` was observed set; `stillRunning` means the
loop had not exited within the examined number of iterations. -/
inductive RunStatus where
  | terminatedInitFail
  | stoppedBySignal
  | stillRunning
deriving DecidableEq

/-- Outcome of running the thread body for a bounded number of iterations:
the exit status and the number of transport writes (dispatches) made. -/
structure RunResult where
  status : RunStatus
  dispatches : Nat
deriving DecidableEq

/-- Environment for a whole run of `_process_gifts_loop`: whether the initial
open succeeds, the queue contents at thread start, the per-iteration oracle,
and the schedule of the stop event as observed by the `while` condition. -/
structure LoopEnv where
  initOpenOk : Bool
  initQueue : List GiftInfo
  iter : Nat → IterEnv
  stopSet : Nat → Bool

/-- The `while not self._stop_event.is_set()` loop, run for at most `fuel`
iterations starting at iteration index `k` in state `s` with `d` dispatches
already made. -/
def runLoop (cfg : WorkerConfig) (env : LoopEnv) :
    Nat → Nat → WorkerState → Nat → RunResult
  | 0, _, _, d => ⟨RunStatus.stillRunning, d⟩
  | Nat.succ n, k, s, d =>
    if env.stopSet k then ⟨RunStatus.stoppedBySignal, d⟩
    else
      let r := processGiftsIter cfg s (env.iter k)
      runLoop cfg env n (k + 1) r.1 (d + r.2.writes.length)

/-- The whole body of `_process_gifts_loop` (`handler.py` lines 76-140): the
initial `_initialize_serial()`; if it fails the thread returns at once
(lines 79-83) without entering the loop; otherwise the loop runs with an open
connection and `_last_processed_time = 0`. -/
def processGiftsLoopRun (cfg : WorkerConfig) (env : LoopEnv) (fuel : Nat) :
    RunResult :=
  if env.initOpenOk then
    runLoop cfg env fuel 0
      { queue := env.initQueue, lastProcessedTime := 0, connOpen := true } 0
  else ⟨RunStatus.terminatedInitFail, 0⟩

/-- Attribute names defined on the `SerialGiftProcessor` class
(`handler.py`), used to model Python attribute lookup on instances. -/
def serialGiftProcessorMethods : List String :=
  ["__init__", "_initialize_serial", "_list_available_ports",
   "_process_gifts_loop", "_reconnect_serial", "start_processing",
   "stop_processing"]

/-- Thread-level state of a `SerialGiftProcessor`: whether
`_processing_thread` exists and is alive, whether `_stop_event` is set, and
how many worker threads have been created and started so far. -/
structure ProcessorThreadState where
  threadAlive : Bool
  stopEventSet : Bool
  threadsStarted : Nat
deriving DecidableEq

/-- `SerialGiftProcessor.start_processing` (`handler.py` lines 184-195): if
the processing thread exists and is alive, log a warning and return without
touching anything; otherwise clear the stop event, create a new daemon
thread, and start it. -/
def start_processing (s : ProcessorThreadState) : ProcessorThreadState :=
  if s.threadAlive then s
  else { threadAlive := true, stopEventSet := false,
         threadsStarted := s.threadsStarted + 1 }

/-- Observable effects of `stop_processing`: the timeout (seconds) passed to
`Thread.join`, if join was called, and whether the timeout warning was
logged. -/
structure StopTrace where
  joinTimeout : Option ℚ
  warnedTimeout : Bool
deriving DecidableEq

/-- `SerialGiftProcessor.stop_processing` (`handler.py` lines 197-210): set
the stop event; if the thread is alive, join it with a 5-second timeout and
log a warning when the thread is still alive afterwards (the caller proceeds
either way). `joinTimesOut` is the environment fact of whether the thread
failed to end within the timeout. -/
def stop_processing (s : ProcessorThreadState) (joinTimesOut : Bool) :
    ProcessorThreadState × StopTrace :=
  let s1 := { s with stopEventSet := true }
  if s.threadAlive then
    if joinTimesOut then (s1, ⟨some 5, true⟩)
    else ({ s1 with threadAlive := false }, ⟨some 5, false⟩)
  else (s1, ⟨none, false⟩)

/-- Result of running the `signal_handler` of `main_controller.py`
(lines 378-385): whether `shutdown_event` ended up set, and the uncaught
exception, if one was raised. -/
structure SignalHandlerResult where
  shutdownEventSet : Bool
  raised : Option String
deriving DecidableEq

/-- `signal_handler` (`main_controller.py` lines 378-385): when
`_serial_processor_ref` is present it calls `_serial_processor_ref.stop()`
before `shutdown_event.set()`.  Python attribute lookup of `"stop"` on the
`SerialGiftProcessor` class raises `AttributeError` when the name is not
among the class attributes, aborting the handler before the shutdown
event is set. -/
def signal_handler (processorPresent : Bool) : SignalHandlerResult :=
  if processorPresent then
    if serialGiftProcessorMethods.contains "stop" then
      ⟨true, none⟩
    else ⟨false, some "AttributeError: SerialGiftProcessor object has no attribute stop"⟩
  else ⟨true, none⟩

/-- Ready-line acceptance test of `_process_gifts_loop` (`handler.py`
lines 94-101): the received line is decoded, stripped with `str.strip()`, and
compared for equality with the stored (already stripped) ready signal. -/
def lineAccepted (cfg : WorkerConfig) (raw : String) : Bool :=
  decide (pyStrip raw = cfg.readySignal)

/-- Modelled from the spec wording for comparison: acceptance "exactly when,
after trimming trailing whitespace/newline from both, it equals the
configured ready-signal string", i.e. with `rstrip` instead of the code's
two-sided `strip`. -/
def specTrailingTrimAccepted (readySignalRaw : String) (raw : String) : Bool :=
  decide (pyRstrip raw = pyRstrip readySignalRaw)

/-- Example gift record for concrete evaluations. -/
def giftEx : GiftInfo := ⟨"Rose", 5655, "alice", 0⟩

/-- Second example gift record. -/
def giftEx2 : GiftInfo := ⟨"Rose", 5655, "bob", 1⟩

/-- Example worker configuration: ready signal `"READY"`, command `"GIFT"`,
cooldown 22 seconds (the default of `main_controller.py`). -/
def cfgEx : WorkerConfig := mkWorkerConfig "COM3" 9600 "READY" "GIFT" 22

/-- Iteration environment in which the serial connection is down and every
open attempt fails, with no incoming data. -/
def idleFailIterEnv : IterEnv := ⟨0, 0, false, none, false⟩

/-- Loop environment in which the initial open fails and the stop event is
never set. -/
def envInitFail : LoopEnv := ⟨false, [], fun _ => idleFailIterEnv, fun _ => false⟩

/-- Loop environment in which the initial open succeeds but the connection
dies at once and every reconnect open attempt fails; the stop event is never
set. -/
def envReconnFail : LoopEnv := ⟨true, [], fun _ => idleFailIterEnv, fun _ => false⟩

/-- Loop environment whose stop event is already set when the loop condition
is first checked. -/
def envStopEx : LoopEnv := ⟨true, [], fun _ => idleFailIterEnv, fun _ => true⟩

theorem processGiftsIter_idleFail (cfg : WorkerConfig) (s : WorkerState) :
    processGiftsIter cfg s idleFailIterEnv =
      ({ s with connOpen := false },
       ⟨[], [], [LogEv.openFailedPortsListed, LogEv.reconnectFailedWait5]⟩) := by
  simp [processGiftsIter, idleFailIterEnv]

theorem runLoop_envReconnFail (cfg : WorkerConfig) :
    ∀ (n k : Nat) (s : WorkerState) (d : Nat),
      runLoop cfg envReconnFail n k s d = ⟨RunStatus.stillRunning, d⟩ := by
  intro n
  induction n with
  | zero => intro k s d; rfl
  | succ n ih =>
    intro k s d
    have hstop : envReconnFail.stopSet k = false := rfl
    have hiter : envReconnFail.iter k = idleFailIterEnv := rfl
    simp [runLoop, hstop, hiter, processGiftsIter_idleFail, ih]

theorem processGiftsIter_no_dispatch (cfg : WorkerConfig) (s : WorkerState)
    (env : IterEnv) (h : canProcessGift cfg s env.now = false) :
    (processGiftsIter cfg s env).2.writes = [] ∧
    (processGiftsIter cfg s env).1.lastProcessedTime = s.lastProcessedTime ∧
    (processGiftsIter cfg s env).1.queue = s.queue := by
  unfold processGiftsIter
  simp only [h, Bool.and_false]
  split
  · simp_all
  · split
    · split <;> simp
    · simp

/-- C1 (amended): an open failure during reconnection, after the loop has
been entered, never terminates the loop: the worker logs the available ports,
waits the fixed 5-second delay, and retries, so after any number of
consecutive reconnect open failures the worker is still running and has made
no dispatch, and the loop exits as soon as the stop event is observed set;
however, when the initial serial open at thread start fails, the worker
thread logs the available ports and returns immediately without retrying. -/
theorem worker_open_failure_behavior :
    (∀ (cfg : WorkerConfig) (env : LoopEnv) (fuel : Nat),
      env.initOpenOk = false →
      processGiftsLoopRun cfg env fuel = ⟨RunStatus.terminatedInitFail, 0⟩)
    ∧ (∀ (cfg : WorkerConfig) (n : Nat),
      processGiftsLoopRun cfg envReconnFail n = ⟨RunStatus.stillRunning, 0⟩)
    ∧ (∀ (cfg : WorkerConfig) (env : LoopEnv) (n k : Nat) (s : WorkerState)
        (d : Nat), env.stopSet k = true →
      runLoop cfg env (n + 1) k s d = ⟨RunStatus.stoppedBySignal, d⟩) := by
  refine ⟨?_, ?_, ?_⟩
  · intro cfg env fuel h
    simp [processGiftsLoopRun, h]
  · intro cfg n
    have h : envReconnFail.initOpenOk = true := rfl
    simp [processGiftsLoopRun, h, runLoop_envReconnFail]
  · intro cfg env n k s d h
    simp [runLoop, h]

/-- C1 (counterexample): with a single consecutive open failure at thread
start and the stop event never set, the worker thread is not still running
and retrying — it has terminated, refuting the claim that a serial open
failure never terminates the loop. -/
theorem worker_initial_open_failure_terminates :
    processGiftsLoopRun cfgEx envInitFail 1 = ⟨RunStatus.terminatedInitFail, 0⟩
    ∧ (processGiftsLoopRun cfgEx envInitFail 1).status ≠ RunStatus.stillRunning
    ∧ envInitFail.stopSet 0 = false := by
  refine ⟨rfl, by decide, rfl⟩

/-- C1 (witness): the amended theorem applied at concrete inputs: a failed
initial open with fuel 3 terminates the thread, and a loop whose stop event
is set stops by signal. -/
theorem worker_open_failure_behavior_witness :
    (envInitFail.initOpenOk = false ∧
      processGiftsLoopRun cfgEx envInitFail 3 = ⟨RunStatus.terminatedInitFail, 0⟩)
    ∧ (envStopEx.stopSet 0 = true ∧
      runLoop cfgEx envStopEx (0 + 1) 0 initWorkerState 0 =
        ⟨RunStatus.stoppedBySignal, 0⟩) :=
  ⟨⟨rfl, worker_open_failure_behavior.1 cfgEx envInitFail 3 rfl⟩,
   ⟨rfl, worker_open_failure_behavior.2.2 cfgEx envStopEx 0 0 initWorkerState 0 rfl⟩⟩

/-- C2: the claim describes `stop_processing` (set the stop event, join the
worker thread with a 5-second timeout, warn and proceed on timeout), but the
lifecycle code (`signal_handler` and the shutdown path of `main`) calls
`_serial_processor_ref.stop()`, and `stop` is not an attribute of
`SerialGiftProcessor`: the call raises `AttributeError` before
`shutdown_event.set()` runs, so neither the shutdown signal nor the stop
event is set on an external stop request. -/
theorem signal_handler_stop_attribute_missing :
    serialGiftProcessorMethods.contains "stop" = false
    ∧ serialGiftProcessorMethods.contains "stop_processing" = true
    ∧ signal_handler true =
        ⟨false, some "AttributeError: SerialGiftProcessor object has no attribute stop"⟩
    ∧ stop_processing ⟨true, false, 1⟩ true = (⟨true, true, 1⟩, ⟨some 5, true⟩)
    ∧ stop_processing ⟨true, false, 1⟩ false = (⟨false, true, 1⟩, ⟨some 5, false⟩) := by
  refine ⟨rfl, rfl, rfl, rfl, rfl⟩

/-- C4: in any iteration whose clock reading `now` satisfies
`now - last_dispatch_time < cooldown`, the worker performs no transport
write, even when the queue is non-empty and a ready signal is pending. -/
theorem no_dispatch_during_cooldown (cfg : WorkerConfig) (s : WorkerState)
    (env : IterEnv) (h : env.now - s.lastProcessedTime < cfg.processCooldown) :
    (processGiftsIter cfg s env).2.writes = [] := by
  have hc : canProcessGift cfg s env.now = false := by
    have : ¬ (env.now - s.lastProcessedTime ≥ cfg.processCooldown) := not_le.mpr h
    simp [canProcessGift, cooldownElapsed, this]
  exact (processGiftsIter_no_dispatch cfg s env hc).1

/-- C4 (witness): cooldown 22 s, last dispatch at 10, ready signal pending at
time 20 with a non-empty queue: no write is performed. -/
theorem no_dispatch_during_cooldown_witness :
    ((20 : ℚ) - 10 < 22)
    ∧ (processGiftsIter cfgEx ⟨[giftEx], 10, true⟩
        ⟨20, 20, true, some "READY", true⟩).2.writes = [] :=
  ⟨by norm_num,
   no_dispatch_during_cooldown cfgEx ⟨[giftEx], 10, true⟩
     ⟨20, 20, true, some "READY", true⟩ (by norm_num [cfgEx, mkWorkerConfig])⟩

/-- C6: in any iteration entered with an empty queue — in particular when a
ready signal is pending — the worker performs no transport write and leaves
`_last_processed_time` unchanged. -/
theorem empty_queue_signal_discarded (cfg : WorkerConfig) (s : WorkerState)
    (env : IterEnv) (h : s.queue = []) :
    (processGiftsIter cfg s env).2.writes = [] ∧
    (processGiftsIter cfg s env).1.lastProcessedTime = s.lastProcessedTime := by
  have hc : canProcessGift cfg s env.now = false := by
    simp [canProcessGift, h]
  exact ⟨(processGiftsIter_no_dispatch cfg s env hc).1,
         (processGiftsIter_no_dispatch cfg s env hc).2.1⟩

/-- C6 (witness): empty queue, ready line `"READY"` pending, cooldown long
elapsed: no write, and the last-dispatch time stays 5. -/
theorem empty_queue_signal_discarded_witness :
    (processGiftsIter cfgEx ⟨[], 5, true⟩ ⟨100, 100, true, some "READY", true⟩).2.writes = []
    ∧ (processGiftsIter cfgEx ⟨[], 5, true⟩
        ⟨100, 100, true, some "READY", true⟩).1.lastProcessedTime = 5 :=
  empty_queue_signal_discarded cfgEx ⟨[], 5, true⟩
    ⟨100, 100, true, some "READY", true⟩ rfl

/-- C7 (counterexample): a received line `" READY"` (leading space) is
accepted by the code, because `str.strip()` trims both ends, while equality
after trimming only trailing whitespace — the criterion the claim states —
fails, so acceptance is not "exactly when" trailing-trimmed equality holds. -/
theorem ready_line_trailing_trim_counterexample :
    lineAccepted (mkWorkerConfig "COM3" 9600 "READY" "GIFT" 22) " READY" = true
    ∧ specTrailingTrimAccepted "READY" " READY" = false :=
  ⟨by decide, by decide⟩

/-- C7 (amended): the received line is accepted as the ready signal exactly
when, after trimming leading and trailing whitespace/newline from both, it
equals the configured ready-signal string; `"READY\r\n"` with configured
signal `"READY"` is accepted (and dispatches when the queue is non-empty and
the cooldown has elapsed), while `"ready"` is rejected, logged as an
unexpected signal, and causes no write. -/
theorem ready_line_acceptance (p : String) (b : Nat) (cfgRaw cmd : String)
    (c : ℚ) (raw : String) :
    (lineAccepted (mkWorkerConfig p b cfgRaw cmd c) raw = true ↔
      pyStrip raw = pyStrip cfgRaw)
    ∧ lineAccepted (mkWorkerConfig p b "READY" cmd c) "READY\r\n" = true
    ∧ lineAccepted (mkWorkerConfig p b "READY" cmd c) "ready" = false
    ∧ processGiftsIter cfgEx ⟨[giftEx], 0, true⟩ ⟨100, 100, true, some "ready", true⟩ =
        (⟨[giftEx], 0, true⟩, ⟨[], ["ready"], [LogEv.unexpectedSignal "ready"]⟩)
    ∧ (processGiftsIter cfgEx ⟨[giftEx], 0, true⟩
        ⟨100, 100, true, some "READY\r\n", true⟩).2.writes = ["GIFT\n"] := by
  have hc : canProcessGift cfgEx ⟨[giftEx], 0, true⟩ (100 : ℚ) = true := by
    simp [canProcessGift, cooldownElapsed, cfgEx, mkWorkerConfig]
    norm_num
  have hr : cfgEx.readySignal = "READY" := rfl
  have hg : cfgEx.giftCommand = "GIFT" := rfl
  have e1 : pyStrip "ready" = "ready" := rfl
  have e2 : pyStrip "READY\r\n" = "READY" := rfl
  refine ⟨?_, rfl, rfl, ?_, ?_⟩
  · simp [lineAccepted, mkWorkerConfig]
  · simp [processGiftsIter, hc, hr, e1]
  · simp [processGiftsIter, hc, hr, hg, e2]

/-- C7 (witness): the amended acceptance criterion applied at a concrete
input: `"READY\n"` against configured signal `"READY"` is accepted. -/
theorem ready_line_acceptance_witness :
    lineAccepted (mkWorkerConfig "COM4" 115200 "READY" "CMD" 1) "READY\n" = true :=
  (ready_line_acceptance "COM4" 115200 "READY" "CMD" 1 "READY\n").1.mpr (by decide)

/-- C8 (counterexample): an iteration with the connection live, the queue
empty (so `can_dispatch` is false) and a line pending on the transport
performs no read at all: the worker does not poll the transport in that
iteration, refuting the claim. -/
theorem idle_iteration_not_polling_counterexample :
    canProcessGift cfgEx ⟨[], 0, true⟩
      ((⟨100, 100, true, some "READY", true⟩ : IterEnv)).now = false
    ∧ ((⟨100, 100, true, some "READY", true⟩ : IterEnv)).incoming = some "READY"
    ∧ (processGiftsIter cfgEx ⟨[], 0, true⟩
        ⟨100, 100, true, some "READY", true⟩).2.reads = [] :=
  ⟨by decide, rfl, by decide⟩

/-- C8 (amended): in every iteration of the connected loop in which
`can_dispatch` is false, the worker performs no transport read and does not
consume the queue: the iteration leaves the state unchanged and produces no
reads, writes, or logs (it only sleeps the 100 ms idle interval); the
transport is polled only in iterations where `can_dispatch` holds. -/
theorem idle_iteration_no_transport_read (cfg : WorkerConfig) (s : WorkerState)
    (env : IterEnv) (h1 : s.connOpen = true) (h2 : env.connAlive = true)
    (h3 : canProcessGift cfg s env.now = false) :
    processGiftsIter cfg s env = (s, ⟨[], [], []⟩) := by
  simp [processGiftsIter, h1, h2, h3]

/-- C8 (witness): the amended theorem at a concrete input: live connection,
empty queue, pending noise line — the iteration is a no-op. -/
theorem idle_iteration_no_transport_read_witness :
    (⟨[], 3, true⟩ : WorkerState).connOpen = true
    ∧ ((⟨50, 50, true, some "NOISE", true⟩ : IterEnv)).connAlive = true
    ∧ canProcessGift cfgEx ⟨[], 3, true⟩
        ((⟨50, 50, true, some "NOISE", true⟩ : IterEnv)).now = false
    ∧ processGiftsIter cfgEx ⟨[], 3, true⟩ ⟨50, 50, true, some "NOISE", true⟩ =
        (⟨[], 3, true⟩, ⟨[], [], []⟩) :=
  ⟨rfl, rfl, by decide,
   idle_iteration_no_transport_read cfgEx ⟨[], 3, true⟩
     ⟨50, 50, true, some "NOISE", true⟩ rfl rfl (by decide)⟩

/-- C3: `TikTokGiftDetector.on_gift` matches the event by identifier when a
target identifier is configured (non-empty), otherwise by name; a matching
event is turned into a gift-info record and enqueued at the tail when the
queue is not full; when the queue is full the record is dropped, the drop is
logged, and the queue is left unchanged (the handler returns normally in
every case — nothing is escalated); a non-matching event changes nothing. -/
theorem on_gift_filters_and_enqueues (cfg : DetectorConfig)
    (q : BoundedQueue GiftInfo) (e : GiftEvent) (now : ℚ) :
    (isTargetGift cfg e = true ↔
      (if cfg.targetGiftId ≠ "" then toString e.giftId = cfg.targetGiftId
       else e.giftName = cfg.targetGiftName))
    ∧ (isTargetGift cfg e = true → q.isFull = false →
        on_gift cfg q e now =
          ({ q with items := q.items ++ [⟨e.giftName, e.giftId, e.userNickname, now⟩] },
           [DetLog.enqueuedTarget]))
    ∧ (isTargetGift cfg e = true → q.isFull = true →
        on_gift cfg q e now = (q, [DetLog.queueFullDropped]))
    ∧ (isTargetGift cfg e = false → on_gift cfg q e now = (q, [])) := by
  refine ⟨?_, ?_, ?_, ?_⟩
  · unfold isTargetGift
    split <;> simp
  · intro h hf
    simp [on_gift, h, put_nowait, hf]
  · intro h hf
    simp [on_gift, h, put_nowait, hf]
  · intro h
    simp [on_gift, h]

/-- C3 (witness): target name `"Rose"`, no target id, matching event into a
non-full queue of capacity 2: the request is enqueued. -/
theorem on_gift_filters_and_enqueues_witness :
    isTargetGift ⟨"Rose", ""⟩ ⟨"Rose", 5655, "alice"⟩ = true
    ∧ (⟨2, []⟩ : BoundedQueue GiftInfo).isFull = false
    ∧ on_gift ⟨"Rose", ""⟩ ⟨2, []⟩ ⟨"Rose", 5655, "alice"⟩ 0 =
        (⟨2, [⟨"Rose", 5655, "alice", 0⟩]⟩, [DetLog.enqueuedTarget]) :=
  ⟨by decide, by decide,
   (on_gift_filters_and_enqueues ⟨"Rose", ""⟩ ⟨2, []⟩ ⟨"Rose", 5655, "alice"⟩ 0).2.1
     (by decide) (by decide)⟩

/-- C5: `put_nowait` on a full queue of positive capacity drops the new item
without blocking and without evicting: the result is `dropped` and the queue
is returned unchanged. -/
theorem put_nowait_drop_on_full {α : Type} (q : BoundedQueue α) (x : α)
    (hcap : 0 < q.maxsize) (hfull : q.maxsize ≤ q.items.length) :
    put_nowait q x = (PutResult.dropped, q) := by
  have hf : q.isFull = true := by
    simp [BoundedQueue.isFull, hcap, hfull]
  simp [put_nowait, hf]

/-- C5 (witness): capacity 2, two stored items, a third arrives: it is
dropped and the queue contents are unchanged. -/
theorem put_nowait_drop_on_full_witness :
    0 < (⟨2, [giftEx, giftEx2]⟩ : BoundedQueue GiftInfo).maxsize
    ∧ (⟨2, [giftEx, giftEx2]⟩ : BoundedQueue GiftInfo).maxsize ≤
        (⟨2, [giftEx, giftEx2]⟩ : BoundedQueue GiftInfo).items.length
    ∧ put_nowait (⟨2, [giftEx, giftEx2]⟩ : BoundedQueue GiftInfo) giftEx =
        (PutResult.dropped, ⟨2, [giftEx, giftEx2]⟩) :=
  ⟨by decide, by decide,
   put_nowait_drop_on_full ⟨2, [giftEx, giftEx2]⟩ giftEx (by decide) (by decide)⟩

/-- C9: `_last_processed_time` is initialized to 0 in `__init__`, so for any
clock value `t` at least the cooldown, the cooldown conjunct of
`can_process_gift` already holds before any dispatch has occurred: the first
dispatch is never delayed by the cooldown. -/
theorem first_dispatch_cooldown_open (cfg : WorkerConfig) (t : ℚ)
    (h : cfg.processCooldown ≤ t) :
    initWorkerState.lastProcessedTime = 0
    ∧ cooldownElapsed cfg initWorkerState t = true := by
  refine ⟨rfl, ?_⟩
  simp [cooldownElapsed, initWorkerState]
  exact h

/-- C9 (witness): cooldown 22 s and clock value 22 at the first check: the
cooldown conjunct holds in the initial state. -/
theorem first_dispatch_cooldown_open_witness :
    cfgEx.processCooldown ≤ (22 : ℚ)
    ∧ (initWorkerState.lastProcessedTime = 0
       ∧ cooldownElapsed cfgEx initWorkerState 22 = true) :=
  ⟨by norm_num [cfgEx, mkWorkerConfig],
   first_dispatch_cooldown_open cfgEx 22 (by norm_num [cfgEx, mkWorkerConfig])⟩

/-- C10: `start_processing` is idempotent while the worker runs: when the
processing thread is alive, the call returns the state unchanged — no second
thread is created or started and the stop event is not cleared, so at most
one worker thread exists per processor. -/
theorem start_processing_noop_when_alive (s : ProcessorThreadState)
    (h : s.threadAlive = true) : start_processing s = s := by
  simp [start_processing, h]

/-- C10 (witness): with a live thread, one thread started so far, and the
stop event set, `start_processing` changes nothing. -/
theorem start_processing_noop_when_alive_witness :
    (⟨true, true, 1⟩ : ProcessorThreadState).threadAlive = true
    ∧ start_processing ⟨true, true, 1⟩ = ⟨true, true, 1⟩ :=
  ⟨rfl, start_processing_noop_when_alive ⟨true, true, 1⟩ rfl⟩
